import Mathlib

/-!
Shallow embedding of the Tamashii file-integrity tracker (Rust sources:
src/models.rs, src/hash.rs, src/database.rs, src/files.rs, src/main.rs)
together with theorems settling the specification claims.

Modelling conventions:
- file paths are strings; Rust PathBuf equality is modelled as string equality;
- chrono DateTime of Utc is modelled as an integer timestamp (nanoseconds
  since the Unix epoch); the ambient current time is passed as an explicit
  parameter wherever the Rust code calls a now function;
- the random 128-bit id produced by Database::gen_id is passed in as an
  explicit parameter (the generator is external randomness);
- Rust Result of T and Exn of E is modelled as Except E T; a Rust panic
  (process abort that returns no value) is modelled by an outer Option
  being none;
- byte sequences are lists of naturals (each element a byte value);
- the u8 size field of FileRecord is modelled as Fin 256, and the Rust cast
  meta.len() as u8 appears as reduction modulo 256.
-/

namespace Tamashii

abbrev Path := String
abbrev Time := Int

/-- HexStirng [sic] wraps a hex-encoded hash string; PartialEq in the source
compares the inner strings, which is definitional equality here. -/
structure HexStirng where
  val : String
deriving DecidableEq, Repr

deriving instance DecidableEq for Except

/-- VERSION constant from src/models.rs. -/
def VERSION : String := "1.0.0"

/-- FileRecord from src/models.rs: id, path, hash, size (u8), time_stamp. -/
structure FileRecord where
  id : String
  path : Path
  hash : HexStirng
  size : Fin 256
  time_stamp : Time
deriving DecidableEq, Repr

/-- DatabaseError from src/errors.rs carries a message. -/
structure DatabaseError where
  message : String
deriving DecidableEq, Repr

/-- InitError from src/errors.rs carries a message. -/
structure InitError where
  message : String
deriving DecidableEq, Repr

/-- Database (the Store) from src/models.rs. -/
structure Database where
  version : String
  root_dir : Path
  created_at : Time
  updated_at : Time
  files : List FileRecord
deriving DecidableEq, Repr

/-- FileRecordBuilder from src/models.rs, minus the mutable borrow of the
Database: the Store is passed explicitly to commit instead. -/
structure FileRecordBuilder where
  id : Option String
  path : Option Path
  hash : Option HexStirng
  size : Option (Fin 256)
  time_stamp : Option Time
deriving DecidableEq, Repr

/-- Database::builder from src/models.rs: all five fields start as None. -/
def Database.builder : FileRecordBuilder :=
  { id := none, path := none, hash := none, size := none, time_stamp := none }

/-- FileRecordBuilder::with_fields from src/models.rs: populates every field
and installs a freshly generated id (the generated value is the explicit
argument genId here). -/
def FileRecordBuilder.with_fields (b : FileRecordBuilder) (genId : String)
    (path : Path) (hash : HexStirng) (size : Fin 256) (time_stamp : Time) :
    FileRecordBuilder :=
  { b with
    id := some genId
    path := some path
    hash := some hash
    size := some size
    time_stamp := some time_stamp }

/-- FileRecordBuilder::validate from src/models.rs: five is_none checks in
source order, each returning the corresponding message; Ok when every field
is populated. The source performs no content checks (no emptiness test, no
filesystem probe, no nonzero or epoch comparison). -/
def FileRecordBuilder.validate (b : FileRecordBuilder) :
    Except DatabaseError Unit :=
  if b.id.isNone then .error { message := "ID is missing" }
  else if b.path.isNone then .error { message := "Path is missing" }
  else if b.hash.isNone then .error { message := "Hash is missing" }
  else if b.size.isNone then .error { message := "Size is missing" }
  else if b.time_stamp.isNone then .error { message := "Timestamp is missing" }
  else .ok ()

/-- Record assembled by FileRecordBuilder::commit after validate succeeds;
the source unwraps each Option (validate guarantees every field is Some, so
the defaults used by getD are never reached). -/
def FileRecordBuilder.builtRecord (b : FileRecordBuilder) : FileRecord :=
  { id := b.id.getD ""
    path := b.path.getD ""
    hash := b.hash.getD { val := "" }
    size := b.size.getD 0
    time_stamp := b.time_stamp.getD 0 }

/-- FileRecordBuilder::commit from src/models.rs in state-passing form: the
pair's second component is the Store after the call. On validation failure
the error propagates unchanged (the source writes self.validate()? which
adds no context) and the Store is returned untouched; on success the built
record is pushed, updated_at is set to the current time, and the last
element of files (the source's last().unwrap()) is returned. -/
def FileRecordBuilder.commit (b : FileRecordBuilder) (db : Database)
    (now : Time) : Except DatabaseError FileRecord × Database :=
  match b.validate with
  | .error e => (.error e, db)
  | .ok _ =>
    let record := b.builtRecord
    let db' : Database :=
      { db with files := db.files ++ [record], updated_at := now }
    (match db'.files.getLast? with
     | some r => .ok r
     | none => .error { message := "empty files after push" }, db')

/-- Outcome of a single-path verification, from the match in run
(src/main.rs, Commands::Verify with a path): the three terminal reports. -/
inductive VerifyOutcome where
  | unchanged
  | mismatch (current stored : HexStirng) (time_stamp : Time)
  | untracked
deriving DecidableEq, Repr

/-- Single-path verify core from src/main.rs: linear scan of files for the
first record whose path equals the argument, then exact hash comparison;
no record found reports untracked. -/
def verifySingle (db : Database) (p : Path) (current_hash : HexStirng) :
    VerifyOutcome :=
  match db.files.find? (fun file => file.path == p) with
  | some record =>
    if current_hash = record.hash then .unchanged
    else .mismatch current_hash record.hash record.time_stamp
  | none => .untracked

/-- The Verify single-path arm of run (src/main.rs): the Store load and the
open-and-hash step happen first (their results are the parameters); any
failure there is an InitError, while all three verification outcomes,
untracked included, are produced on the Ok path. -/
def runVerifySingle (loadResult : Except InitError Database)
    (hashResult : Except InitError HexStirng) (p : Path) :
    Except InitError VerifyOutcome :=
  match loadResult with
  | .error e => .error e
  | .ok db =>
    match hashResult with
    | .error e => .error e
    | .ok h => .ok (verifySingle db p h)

/-! Persistence (src/database.rs). The persisted file is pretty-printed JSON;
serde round-trips each field. The JSON document is modelled as a tree, field
writes follow the declaration order of the derived Serialize, and field reads
model the derived Deserialize. Timestamps, which chrono serializes as RFC3339
strings and parses back to the identical instant, appear as their integer
value; the byte-level write of the document and the UTF-8 validated read back
(compio::fs::write / compio::fs::read plus str::from_utf8) transport the
document unchanged and are the identity at this level. -/

/-- JSON document tree produced by serde_json for the Database schema. -/
inductive Json where
  | str : String → Json
  | num : Int → Json
  | arr : List Json → Json
  | obj : List (String × Json) → Json

/-- Field lookup in a JSON object, None on any other node. -/
def Json.lookup (j : Json) (key : String) : Option Json :=
  match j with
  | .obj fields => (fields.find? (fun kv => kv.1 == key)).map Prod.snd
  | _ => none

/-- Coerces an optional JSON node to its string payload. -/
def Json.asStr : Option Json → Option String
  | some (.str s) => some s
  | _ => none

/-- Coerces an optional JSON node to its numeric payload. -/
def Json.asNum : Option Json → Option Int
  | some (.num n) => some n
  | _ => none

/-- Coerces an optional JSON node to its array payload. -/
def Json.asArr : Option Json → Option (List Json)
  | some (.arr xs) => some xs
  | _ => none

/-- Derived Serialize for FileRecord: one object field per struct field, in
declaration order; HexStirng is a newtype over its inner string. -/
def serializeRecord (r : FileRecord) : Json :=
  .obj [ ("id", .str r.id)
       , ("path", .str r.path)
       , ("hash", .str r.hash.val)
       , ("size", .num r.size.val)
       , ("time_stamp", .num r.time_stamp) ]

/-- Derived Deserialize for FileRecord: every field must be present with the
right shape, and the size must fit in u8. -/
def parseRecord (j : Json) : Option FileRecord :=
  match Json.asStr (j.lookup "id"), Json.asStr (j.lookup "path"),
      Json.asStr (j.lookup "hash"), Json.asNum (j.lookup "size"),
      Json.asNum (j.lookup "time_stamp") with
  | some id, some path, some hashStr, some size, some ts =>
    if h : 0 ≤ size ∧ size < 256 then
      some { id := id, path := path, hash := { val := hashStr }
           , size := ⟨size.toNat, by omega⟩, time_stamp := ts }
    else none
  | _, _, _, _, _ => none

/-- Deserialize for a Vec of records: each element must parse. -/
def parseRecords : List Json → Option (List FileRecord)
  | [] => some []
  | j :: rest =>
    match parseRecord j, parseRecords rest with
    | some r, some rs => some (r :: rs)
    | _, _ => none

/-- The serialization half of write_database_file / Database::save
(src/database.rs): the derived Serialize of the Database struct, fields in
declaration order. -/
def serialize_database (db : Database) : Json :=
  .obj [ ("version", .str db.version)
       , ("root_dir", .str db.root_dir)
       , ("created_at", .num db.created_at)
       , ("updated_at", .num db.updated_at)
       , ("files", .arr (db.files.map serializeRecord)) ]

/-- parse_database_file (src/database.rs): the derived Deserialize of the
Database struct applied to the document read back from disk. -/
def parse_database_file (j : Json) : Option Database :=
  match Json.asStr (j.lookup "version"), Json.asStr (j.lookup "root_dir"),
      Json.asNum (j.lookup "created_at"), Json.asNum (j.lookup "updated_at"),
      Json.asArr (j.lookup "files") with
  | some v, some rd, some ca, some ua, some fs =>
    (parseRecords fs).map (fun files =>
      { version := v, root_dir := rd, created_at := ca, updated_at := ua
      , files := files })
  | _, _, _, _, _ => none

/-! Store construction (src/models.rs). -/

/-- Database::new from src/models.rs: current directory lookup may fail (the
Except parameter), otherwise the Store starts at VERSION, the current
directory, both timestamps now, and no files. The source calls Utc::now()
twice in immediate succession; both calls observe the ambient current time
passed here as now. -/
def Database.new (cwd : Except String Path) (now : Time) :
    Except InitError Database :=
  match cwd with
  | .error err =>
    .error { message := "Failed to get current directory: " ++ err }
  | .ok dir =>
    .ok { version := VERSION, root_dir := dir, created_at := now
        , updated_at := now, files := [] }

/-- Database::get_or_create_db from src/models.rs: a fresh Store when no file
exists at the path, otherwise the result of Database::load on that path
(passed here as loadResult). -/
def get_or_create_db (pathExists : Bool) (cwd : Except String Path)
    (now : Time) (loadResult : Except InitError Database) :
    Except InitError Database :=
  if !pathExists then Database.new cwd now else loadResult

/-! The Add and Verify command arms of run (src/main.rs). -/

/-- The Add arm of run (src/main.rs): after the file is opened, its metadata
and content hash obtained, the builder is filled via with_fields — the size
argument is the metadata length cast with as u8, that is reduced modulo
256 — and committed. len is the true byte length reported by metadata. -/
def runAdd (db : Database) (p : Path) (contentHash : HexStirng) (len : Nat)
    (created : Time) (genId : String) (now : Time) :
    Except DatabaseError FileRecord × Database :=
  (Database.builder.with_fields genId p contentHash
    ⟨len % 256, by omega⟩ created).commit db now

/-- Result of the Verify command dispatch in run (src/main.rs): a single-path
outcome, a printed message, a usage error exit, or (for comparison with the
specification) a list of per-record reports that a bulk verification would
produce. -/
inductive VerifyCmdResult where
  | single (out : VerifyOutcome)
  | bulkReports (outs : List (FileRecord × Bool))
  | message (s : String)
  | usageError (s : String)
deriving DecidableEq, Repr

/-- The Verify dispatch of run (src/main.rs) over the (path, all) pair. The
liveHash parameter gives the hash of the live content at any path. The
(none, true) arm is the literal source: it only prints a stub message and
touches neither the Store nor any file. -/
def runVerifyCmd (db : Database) (pathArg : Option Path) (allFlag : Bool)
    (liveHash : Path → HexStirng) : VerifyCmdResult :=
  match pathArg, allFlag with
  | some p, false => .single (verifySingle db p (liveHash p))
  | none, true => .message "Verify all - not implemented yet"
  | none, false => .usageError "Error: must provide either <path> or --all"
  | some _, true => .usageError "Error: cannot use both <path> and --all"

/-- Follows the spec's words, for comparison with runVerifyCmd (§4.4 Bulk
verify): load the Store once; iterate every record in insertion order; for
each, hash the file at its stored path and compare; report each record
independently, true meaning the hashes match. -/
def bulkVerifySpecModel (db : Database) (liveHash : Path → HexStirng) :
    List (FileRecord × Bool) :=
  db.files.map (fun r => (r, liveHash r.path == r.hash))

/-! Hashing engine (src/hash.rs). hash_bytes computes the SHA-256 digest of
its input bytes with the sha2 crate and formats it as lowercase hex; the
FIPS 180-4 SHA-256 algorithm is embedded here in full, on bytes as naturals
and 32-bit words as naturals reduced modulo 2^32. -/

/-- Reduction to a 32-bit word. -/
def w32 (n : Nat) : Nat := n % 4294967296

/-- Right rotation of a 32-bit word by n positions. -/
def rotr (n x : Nat) : Nat := (x % 2 ^ n) * 2 ^ (32 - n) + x / 2 ^ n

/-- Choice function: bits of y where x is set, bits of z where x is clear. -/
def shaCh (x y z : Nat) : Nat :=
  Nat.xor (Nat.land x y) (Nat.land (4294967295 - w32 x) z)

/-- Majority function over three words, bitwise. -/
def shaMaj (x y z : Nat) : Nat :=
  Nat.xor (Nat.land x y) (Nat.xor (Nat.land x z) (Nat.land y z))

/-- Big sigma-0 compression mixer. -/
def bigSigma0 (x : Nat) : Nat :=
  Nat.xor (rotr 2 x) (Nat.xor (rotr 13 x) (rotr 22 x))

/-- Big sigma-1 compression mixer. -/
def bigSigma1 (x : Nat) : Nat :=
  Nat.xor (rotr 6 x) (Nat.xor (rotr 11 x) (rotr 25 x))

/-- Small sigma-0 schedule mixer. -/
def smallSigma0 (x : Nat) : Nat :=
  Nat.xor (rotr 7 x) (Nat.xor (rotr 18 x) (x / 2 ^ 3))

/-- Small sigma-1 schedule mixer. -/
def smallSigma1 (x : Nat) : Nat :=
  Nat.xor (rotr 17 x) (Nat.xor (rotr 19 x) (x / 2 ^ 10))

/-- The 64 SHA-256 round constants. -/
def shaK : List Nat :=
  [1116352408, 1899447441, 3049323471, 3921009573, 961987163, 1508970993,
   2453635748, 2870763221, 3624381080, 310598401, 607225278, 1426881987,
   1925078388, 2162078206, 2614888103, 3248222580, 3835390401, 4022224774,
   264347078, 604807628, 770255983, 1249150122, 1555081692, 1996064986,
   2554220882, 2821834349, 2952996808, 3210313671, 3336571891, 3584528711,
   113926993, 338241895, 666307205, 773529912, 1294757372, 1396182291,
   1695183700, 1986661051, 2177026350, 2456956037, 2730485921, 2820302411,
   3259730800, 3345764771, 3516065817, 3600352804, 4094571909, 275423344,
   430227734, 506948616, 659060556, 883997877, 958139571, 1322822218,
   1537002063, 1747873779, 1955562222, 2024104815, 2227730452, 2361852424,
   2428436474, 2756734187, 3204031479, 3329325298]

/-- The eight SHA-256 initial hash values. -/
def shaH0 : List Nat :=
  [1779033703, 3144134277, 1013904242, 2773480762, 1359893119, 2600822924,
   528734635, 1541459225]

/-- Big-endian serialization of a natural into k bytes. -/
def bytesBE : Nat → Nat → List Nat
  | 0, _ => []
  | k + 1, n => bytesBE k (n / 256) ++ [n % 256]

/-- SHA-256 padding: a 0x80 byte, zeros up to 56 mod 64, and the bit length
in 8 big-endian bytes. -/
def padMessage (msg : List Nat) : List Nat :=
  msg ++ [128] ++ List.replicate ((120 - (msg.length + 1) % 64) % 64) 0
      ++ bytesBE 8 (msg.length * 8)

/-- Splits a list into chunks of k elements; the fuel argument (the list
length at the first call) bounds the recursion. -/
def chunksOf (k : Nat) : Nat → List Nat → List (List Nat)
  | _, [] => []
  | 0, _ => []
  | fuel + 1, l => l.take k :: chunksOf k fuel (l.drop k)

/-- Big-endian 32-bit words of one 64-byte chunk. -/
def wordsOfChunk (chunk : List Nat) : List Nat :=
  (chunksOf 4 chunk.length chunk).map
    (fun bs => bs.foldl (fun acc b => acc * 256 + b) 0)

/-- Next message-schedule word from the last sixteen already produced. -/
def nextScheduleWord (ws : List Nat) : Nat :=
  let n := ws.length
  w32 (smallSigma1 (ws.getD (n - 2) 0) + ws.getD (n - 7) 0 +
       smallSigma0 (ws.getD (n - 15) 0) + ws.getD (n - 16) 0)

/-- Extends the schedule by the given number of words. -/
def extendSchedule : List Nat → Nat → List Nat
  | ws, 0 => ws
  | ws, fuel + 1 => extendSchedule (ws ++ [nextScheduleWord ws]) fuel

/-- The 64-word message schedule of one chunk. -/
def msgSchedule (ws : List Nat) : List Nat := extendSchedule ws 48

/-- One SHA-256 compression round on the eight-word working state; the pair
argument carries the round constant and the schedule word. -/
def compressStep (st : List Nat) (kw : Nat × Nat) : List Nat :=
  match st with
  | [a, b, c, d, e, f, g, h] =>
    let t1 := w32 (h + bigSigma1 e + shaCh e f g + kw.1 + kw.2)
    let t2 := w32 (bigSigma0 a + shaMaj a b c)
    [w32 (t1 + t2), a, b, c, w32 (d + t1), e, f, g]
  | st => st

/-- Processes one 64-byte chunk: 64 rounds, then adds the working state back
into the hash state, word by word modulo 2^32. -/
def compressChunk (hs : List Nat) (chunk : List Nat) : List Nat :=
  let st := (shaK.zip (msgSchedule (wordsOfChunk chunk))).foldl compressStep hs
  (hs.zip st).map (fun p => w32 (p.1 + p.2))

/-- The 32-byte SHA-256 digest of a byte sequence. -/
def sha256 (msg : List Nat) : List Nat :=
  let padded := padMessage msg
  let hs := (chunksOf 64 padded.length padded).foldl compressChunk shaH0
  (hs.map (bytesBE 4)).flatten

/-- The sixteen lowercase hex digits. -/
def hexDigits : List Char := "0123456789abcdef".toList

/-- Two lowercase hex characters of one byte. -/
def hexByte (b : Nat) : List Char :=
  [hexDigits.getD (b / 16 % 16) '0', hexDigits.getD (b % 16) '0']

/-- hash_bytes from src/hash.rs: the SHA-256 digest of the bytes, formatted
as a lowercase hex string. -/
def hash_bytes (bytes : List Nat) : HexStirng :=
  { val := String.mk ((sha256 bytes).map hexByte).flatten }

/-! Hash input reading (src/hash.rs). -/

/-- IoError of PathBuf from src/errors.rs. -/
structure IoErrorP where
  path : Option Path
  message : String
deriving DecidableEq, Repr

/-- read_file_bytes from src/hash.rs, over the outcomes of its two external
steps: the metadata query and the read of the full content. A metadata
failure is turned into an IoError by or_raise; the read result, however, is
unwrapped with expect, which panics on failure — the none of the outer
Option models that process abort, in which no error value is returned to
the caller. -/
def read_file_bytes (meta : Except String Nat)
    (readResult : Except String (List Nat)) :
    Option (Except IoErrorP (List Nat)) :=
  match meta with
  | .error _ =>
    some (.error { path := none
                 , message := "Unable to retrieve meta data from file" })
  | .ok _ =>
    match readResult with
    | .error _ => none
    | .ok buffer => some (.ok buffer)

/-- hash_file from src/hash.rs: read_file_bytes then hash_bytes; an abort
(none) during the read propagates as the whole process aborting, an error
propagates as the error, and otherwise the bytes are digested. -/
def hash_file (readBytes : Option (Except IoErrorP (List Nat))) :
    Option (Except IoErrorP HexStirng) :=
  match readBytes with
  | none => none
  | some (.error e) => some (.error e)
  | some (.ok bytes) => some (.ok (hash_bytes bytes))

/-! Concrete sample values used by witness and counterexample theorems. -/

/-- Sample tracked record for the single-path verification witness. -/
def w1Rec : FileRecord :=
  { id := "id1", path := "a.txt", hash := { val := "aa11" }, size := 5
  , time_stamp := 100 }

/-- Sample Store holding w1Rec. -/
def w1Db : Database :=
  { version := VERSION, root_dir := "/r", created_at := 0, updated_at := 0
  , files := [w1Rec] }

/-- A live hash differing from the stored hash of w1Rec. -/
def w1OtherHash : HexStirng := { val := "bb22" }

/-- Builder whose five fields are all populated but whose hash string is
empty, whose size is zero, and whose timestamp is before the epoch. -/
def c2Builder : FileRecordBuilder :=
  { id := some "00ff", path := some "/no/such/file"
  , hash := some { val := "" }, size := some 0, time_stamp := some (-1) }

/-- Sample Store for the commit atomicity theorems. -/
def w3Db : Database :=
  { version := VERSION, root_dir := "/r", created_at := 0, updated_at := 7
  , files := [] }

/-- Fully populated sample builder for the commit witnesses. -/
def w3Builder : FileRecordBuilder :=
  Database.builder.with_fields "idw" "w.txt" { val := "cafe" } 9 11

/-- Sample record for the bulk-verification counterexample. -/
def c5Rec : FileRecord :=
  { id := "r1", path := "f.txt", hash := { val := "aa" }, size := 3
  , time_stamp := 9 }

/-- Sample Store with one record whose live content will mismatch. -/
def c5Db : Database :=
  { version := VERSION, root_dir := "/r", created_at := 0, updated_at := 0
  , files := [c5Rec] }

/-- Live hashing assignment mismatching the stored hash of c5Rec. -/
def c5Live : Path → HexStirng := fun _ => { val := "bb" }

/-- Sample Store for the Add size theorems. -/
def c6Db : Database :=
  { version := VERSION, root_dir := "/r", created_at := 0, updated_at := 0
  , files := [] }

/-- Sample Store for the get-or-create witness. -/
def w8Db : Database :=
  { version := VERSION, root_dir := "/elsewhere", created_at := 3
  , updated_at := 4, files := [] }

/-- Pre-existing record of the commit frame witness Store. -/
def w10Rec : FileRecord :=
  { id := "old", path := "o.txt", hash := { val := "dd" }, size := 1
  , time_stamp := 5 }

/-- Sample Store for the commit frame witness. -/
def w10Db : Database :=
  { version := VERSION, root_dir := "/ten", created_at := 1, updated_at := 2
  , files := [w10Rec] }

/-- Fully populated sample builder for the commit frame witness. -/
def w10Builder : FileRecordBuilder :=
  Database.builder.with_fields "idt" "t.txt" { val := "beef" } 2 6

/-! Supporting lemmas about the hashing engine. -/

theorem bytesBE_length (k n : Nat) : (bytesBE k n).length = k := by
  induction k generalizing n with
  | zero => rfl
  | succ k ih => simp [bytesBE, ih]

theorem compressStep_length (st : List Nat) (kw : Nat × Nat) :
    (compressStep st kw).length = st.length := by
  unfold compressStep
  split <;> simp

theorem foldl_compressStep_length (l : List (Nat × Nat)) (st : List Nat) :
    (l.foldl compressStep st).length = st.length := by
  induction l generalizing st with
  | nil => rfl
  | cons x l ih => rw [List.foldl_cons, ih, compressStep_length]

theorem compressChunk_length (hs chunk : List Nat) :
    (compressChunk hs chunk).length = hs.length := by
  simp [compressChunk, foldl_compressStep_length]

theorem foldl_compressChunk_length (chunks : List (List Nat))
    (hs : List Nat) : (chunks.foldl compressChunk hs).length = hs.length := by
  induction chunks generalizing hs with
  | nil => rfl
  | cons c cs ih => rw [List.foldl_cons, ih, compressChunk_length]

theorem flatten_map_bytesBE_length (l : List Nat) :
    ((l.map (bytesBE 4)).flatten).length = 4 * l.length := by
  induction l with
  | nil => rfl
  | cons x l ih =>
    simp only [List.map_cons, List.flatten_cons, List.length_append, ih,
      bytesBE_length, List.length_cons]
    ring

theorem sha256_length (msg : List Nat) : (sha256 msg).length = 32 := by
  show ((((chunksOf 64 (padMessage msg).length (padMessage msg)).foldl
      compressChunk shaH0).map (bytesBE 4)).flatten).length = 32
  rw [flatten_map_bytesBE_length, foldl_compressChunk_length]
  rfl

theorem hexDigits_getD_mem (i : Nat) : hexDigits.getD i '0' ∈ hexDigits := by
  by_cases h : i < hexDigits.length
  · rw [List.getD_eq_getElem?_getD, List.getElem?_eq_getElem h]
    exact List.getElem_mem h
  · rw [List.getD_eq_getElem?_getD, List.getElem?_eq_none (by omega)]
    decide

theorem hexByte_mem (b : Nat) : ∀ c ∈ hexByte b, c ∈ hexDigits := by
  intro c hc
  simp only [hexByte, List.mem_cons, List.not_mem_nil, or_false] at hc
  rcases hc with h | h <;> (subst h; exact hexDigits_getD_mem _)

theorem flatten_map_hexByte_length (l : List Nat) :
    ((l.map hexByte).flatten).length = 2 * l.length := by
  induction l with
  | nil => rfl
  | cons x l ih =>
    simp only [List.map_cons, List.flatten_cons, List.length_append, ih,
      hexByte, List.length_cons, List.length_nil]
    ring

set_option maxRecDepth 400000 in
/-- Test vector: the SHA-256 digest of the empty byte sequence. -/
theorem sha256_empty_vector :
    hash_bytes [] =
      { val := "e3b0c44298fc1c149afbf4c8996fb92427ae41e4649b934ca495991b7852b855" } := by
  decide

set_option maxRecDepth 400000 in
/-- Test vector: the SHA-256 digest of the ASCII bytes of hello, the value
named in the add-then-verify scenario of the spec. -/
theorem sha256_hello_vector :
    hash_bytes [104, 101, 108, 108, 111] =
      { val := "2cf24dba5fb0a30e26e83b2ac5b9e29e1b161e5c1fa7425e73043362938b9824" } := by
  decide

/-- C7: hash_bytes is a pure, deterministic function of the byte sequence
alone — equal inputs give identical hex strings — and every output is a
string of exactly 64 lowercase hex characters (a 256-bit digest); no file
path or metadata enters the computation (the function consumes only the
bytes). -/
theorem digest_deterministic_fixed_length (b1 b2 : List Nat) :
    hash_bytes b1 = hash_bytes b1 ∧
    (b1 = b2 → hash_bytes b1 = hash_bytes b2) ∧
    (hash_bytes b1).val.length = 64 ∧
    ∀ c ∈ (hash_bytes b1).val.toList, c ∈ hexDigits := by
  refine ⟨rfl, fun h => by rw [h], ?_, ?_⟩
  · show (String.mk ((sha256 b1).map hexByte).flatten).length = 64
    show ((sha256 b1).map hexByte).flatten.length = 64
    rw [flatten_map_hexByte_length, sha256_length]
  · intro c hc
    have hc' : c ∈ ((sha256 b1).map hexByte).flatten := hc
    rw [List.mem_flatten] at hc'
    rcases hc' with ⟨l, hl, hcl⟩
    rw [List.mem_map] at hl
    rcases hl with ⟨x, _, rfl⟩
    exact hexByte_mem x c hcl

/-- Witness for C7 at the concrete byte sequence [1, 2]. -/
theorem digest_deterministic_fixed_length_witness :
    hash_bytes [1, 2] = hash_bytes [1, 2] ∧
    (hash_bytes [1, 2]).val.length = 64 :=
  ⟨(digest_deterministic_fixed_length [1, 2] [1, 2]).2.1 rfl,
   (digest_deterministic_fixed_length [1, 2] [1, 2]).2.2.1⟩

/-- C1: single-path verification is correct: with the Store loaded and the
live content hashed successfully, if the first record (in insertion order)
whose path equals the given path stores the live hash, the outcome is
unchanged; if its stored hash differs from the live hash, the outcome is a
mismatch carrying both hashes and that record's original timestamp; and if
no record's path equals the given path, the outcome is untracked, produced
on the Ok path and not as an error. -/
theorem verify_single_path_correct (db : Database) (p : Path)
    (live : HexStirng) :
    (∀ r, db.files.find? (fun f => f.path == p) = some r →
      (live = r.hash →
        runVerifySingle (.ok db) (.ok live) p = .ok .unchanged) ∧
      (live ≠ r.hash →
        runVerifySingle (.ok db) (.ok live) p =
          .ok (.mismatch live r.hash r.time_stamp))) ∧
    ((∀ f ∈ db.files, f.path ≠ p) →
      runVerifySingle (.ok db) (.ok live) p = .ok .untracked) := by
  constructor
  · intro r hr
    constructor
    · intro he
      simp [runVerifySingle, verifySingle, hr, he]
    · intro hne
      simp [runVerifySingle, verifySingle, hr, hne]
  · intro hnone
    have hfind : db.files.find? (fun f => f.path == p) = none := by
      rw [List.find?_eq_none]
      intro f hf
      simpa using hnone f hf
    simp [runVerifySingle, verifySingle, hfind]

/-- Witness for C1: the tracked path of w1Db with the stored hash, with a
differing hash, and an untracked path. -/
theorem verify_single_path_correct_witness :
    runVerifySingle (.ok w1Db) (.ok w1Rec.hash) "a.txt" = .ok .unchanged ∧
    runVerifySingle (.ok w1Db) (.ok w1OtherHash) "a.txt" =
      .ok (.mismatch w1OtherHash w1Rec.hash 100) ∧
    runVerifySingle (.ok w1Db) (.ok w1Rec.hash) "b.txt" = .ok .untracked := by
  refine ⟨?_, ?_, ?_⟩
  · exact ((verify_single_path_correct w1Db "a.txt" w1Rec.hash).1 w1Rec
      (by decide)).1 rfl
  · exact ((verify_single_path_correct w1Db "a.txt" w1OtherHash).1 w1Rec
      (by decide)).2 (by decide)
  · exact (verify_single_path_correct w1Db "b.txt" w1Rec.hash).2 (by decide)

/-- C2 counterexample: a builder whose five fields are all populated but
whose hash string is empty, whose size is zero, and whose timestamp is
before the epoch passes validate with Ok — the source validate checks only
that each field is populated, and never probes content, size, timestamp,
or the filesystem. -/
theorem validate_content_unchecked_cex :
    c2Builder.hash = some { val := "" } ∧ c2Builder.size = some 0 ∧
    c2Builder.time_stamp = some (-1) ∧ c2Builder.validate = .ok () := by
  decide

/-- C2 amended: validate() checks, in this order, that the id, path, hash,
size and timestamp fields are each populated, returns the message of the
first missing field, and returns Ok exactly when all five fields are
present, regardless of their values. -/
theorem validate_checks_presence_only (b : FileRecordBuilder) :
    (b.validate = .ok () ↔ b.id.isSome ∧ b.path.isSome ∧ b.hash.isSome ∧
      b.size.isSome ∧ b.time_stamp.isSome) ∧
    (b.id = none → b.validate = .error { message := "ID is missing" }) ∧
    (b.id.isSome → b.path = none →
      b.validate = .error { message := "Path is missing" }) ∧
    (b.id.isSome → b.path.isSome → b.hash = none →
      b.validate = .error { message := "Hash is missing" }) ∧
    (b.id.isSome → b.path.isSome → b.hash.isSome → b.size = none →
      b.validate = .error { message := "Size is missing" }) ∧
    (b.id.isSome → b.path.isSome → b.hash.isSome → b.size.isSome →
      b.time_stamp = none →
      b.validate = .error { message := "Timestamp is missing" }) := by
  obtain ⟨i, pa, ha, sz, ts⟩ := b
  cases i <;> cases pa <;> cases ha <;> cases sz <;> cases ts <;>
    simp [FileRecordBuilder.validate]

/-- Witness for C2 at the all-empty builder and a fully populated one. -/
theorem validate_checks_presence_only_witness :
    Database.builder.validate = .error { message := "ID is missing" } ∧
    w3Builder.validate = .ok () :=
  ⟨(validate_checks_presence_only Database.builder).2.1 rfl,
   (validate_checks_presence_only w3Builder).1.mpr
     ⟨rfl, rfl, rfl, rfl, rfl⟩⟩

/-- C3 counterexample: on an invalid builder, commit returns exactly the
error produced by validate — the identical message with no commit-level
context added (the source propagates it with the question-mark operator) —
while the Store is returned untouched. -/
theorem commit_error_unwrapped_cex :
    Database.builder.validate = .error { message := "ID is missing" } ∧
    Database.builder.commit w3Db 42 =
      (.error { message := "ID is missing" }, w3Db) := by
  decide

/-- C3 amended: commit() is atomic: if validate() fails, commit() returns
validate's error unchanged and the Store is left completely unmodified; if
validate() succeeds, commit() appends exactly one FileRecord built from the
accumulated fields to the end of files, sets updated_at to the current
time, and returns the newly appended record, which is the last element of
files. -/
theorem commit_atomic (b : FileRecordBuilder) (db : Database) (now : Time) :
    (∀ e, b.validate = .error e → b.commit db now = (.error e, db)) ∧
    (b.validate = .ok () →
      b.commit db now =
        (.ok b.builtRecord,
          { db with files := db.files ++ [b.builtRecord],
                    updated_at := now }) ∧
      (db.files ++ [b.builtRecord]).getLast? = some b.builtRecord) := by
  constructor
  · intro e he
    simp [FileRecordBuilder.commit, he]
  · intro h
    refine ⟨?_, List.getLast?_concat _⟩
    simp [FileRecordBuilder.commit, h, List.getLast?_concat]

/-- Witness for C3: a fully populated builder committed into w3Db, and the
empty builder failing without touching w3Db. -/
theorem commit_atomic_witness :
    w3Builder.commit w3Db 5 =
      (.ok w3Builder.builtRecord,
        { w3Db with files := w3Db.files ++ [w3Builder.builtRecord],
                    updated_at := 5 }) ∧
    Database.builder.commit w3Db 5 =
      (.error { message := "ID is missing" }, w3Db) :=
  ⟨((commit_atomic w3Builder w3Db 5).2 (by decide)).1,
   (commit_atomic Database.builder w3Db 5).1 _ (by decide)⟩

/-- C10: a successful commit has no effect beyond the documented mutation:
version, root_dir and created_at are unchanged, every record already
present keeps its exact value and position, and the only changes are the
single record appended at the end and the updated updated_at. -/
theorem commit_frame (b : FileRecordBuilder) (db : Database) (now : Time)
    (h : b.validate = .ok ()) :
    (b.commit db now).2.version = db.version ∧
    (b.commit db now).2.root_dir = db.root_dir ∧
    (b.commit db now).2.created_at = db.created_at ∧
    (b.commit db now).2.updated_at = now ∧
    (b.commit db now).2.files = db.files ++ [b.builtRecord] ∧
    (∀ i, i < db.files.length →
      (b.commit db now).2.files[i]? = db.files[i]?) ∧
    (b.commit db now).1 = .ok b.builtRecord := by
  have hc : b.commit db now =
      (.ok b.builtRecord,
        { db with files := db.files ++ [b.builtRecord],
                  updated_at := now }) := by
    simp [FileRecordBuilder.commit, h, List.getLast?_concat]
  rw [hc]
  refine ⟨rfl, rfl, rfl, rfl, rfl, ?_, rfl⟩
  intro i hi
  exact List.getElem?_append_left hi

/-- Witness for C10 on a Store already holding one record. -/
theorem commit_frame_witness :
    (w10Builder.commit w10Db 9).2.created_at = 1 ∧
    (w10Builder.commit w10Db 9).2.files[0]? = some w10Rec := by
  have h := commit_frame w10Builder w10Db 9 (by decide)
  refine ⟨h.2.2.1, ?_⟩
  rw [h.2.2.2.2.2.1 0 (by decide)]
  decide

/-! Supporting lemmas for persistence. -/

theorem parseRecord_serializeRecord (r : FileRecord) :
    parseRecord (serializeRecord r) = some r := by
  obtain ⟨id, path, ⟨hv⟩, size, ts⟩ := r
  have hlt : (size.val : Int) < 256 := by exact_mod_cast size.isLt
  simp [parseRecord, serializeRecord, Json.lookup, Json.asStr, Json.asNum,
    List.find?, hlt]

theorem parseRecords_round (l : List FileRecord) :
    parseRecords (l.map serializeRecord) = some l := by
  induction l with
  | nil => rfl
  | cons r l ih => simp [parseRecords, parseRecord_serializeRecord, ih]

/-- C4: persistence round-trips: serializing any Store with save and parsing
the written document back with load yields the identical Store — version,
root_dir, both timestamps to the persisted precision, and every record's
id, path, hash, size and timestamp, in the same order. -/
theorem save_load_round_trip (db : Database) :
    parse_database_file (serialize_database db) = some db := by
  obtain ⟨v, rd, ca, ua, files⟩ := db
  simp [parse_database_file, serialize_database, Json.lookup, Json.asStr,
    Json.asNum, Json.asArr, List.find?, parseRecords_round]

/-- C5 counterexample: on a Store holding a record whose live content
hashes differently, the --all arm produces only a stub message and no
per-record report, while the bulk verification the spec describes would
report that record as a mismatch. -/
theorem bulk_verify_unimplemented_cex :
    runVerifyCmd c5Db none true c5Live ≠
      .bulkReports (bulkVerifySpecModel c5Db c5Live) ∧
    runVerifyCmd c5Db none true c5Live =
      .message "Verify all - not implemented yet" ∧
    bulkVerifySpecModel c5Db c5Live = [(c5Rec, false)] := by
  decide

/-- C5 amended: bulk verification is not implemented: for every Store and
every live-content hashing, the --all arm only prints the stub message and
performs no loading, hashing or per-record comparison. -/
theorem bulk_verify_stub (db : Database) (live : Path → HexStirng) :
    runVerifyCmd db none true live =
      .message "Verify all - not implemented yet" := rfl

/-- C6 counterexample: a 300-byte file is recorded with size 44, which is
300 mod 256, not its size in bytes — the as u8 cast truncates sizes above
255. -/
theorem add_size_truncation_cex :
    (runAdd c6Db "/big" { val := "cc" } 300 0 "id300" 1).1.map
      (fun r => r.size.val) = .ok 44 ∧ (44 : Nat) ≠ 300 := by
  decide

/-- C6 amended: the committed record's size field equals the file's byte
size reduced modulo 256 (the as u8 cast in the Add arm), a value within
0–255; it equals the true size exactly when that size is at most 255. -/
theorem add_size_mod256 (db : Database) (p : Path) (hsh : HexStirng)
    (len : Nat) (created : Time) (genId : String) (now : Time) :
    (runAdd db p hsh len created genId now).1.map (fun r => r.size.val) =
      .ok (len % 256) ∧
    (len ≤ 255 →
      (runAdd db p hsh len created genId now).1.map (fun r => r.size.val) =
        .ok len) := by
  have h1 : (runAdd db p hsh len created genId now).1.map
      (fun r => r.size.val) = .ok (len % 256) := by
    simp [runAdd, FileRecordBuilder.commit, FileRecordBuilder.validate,
      FileRecordBuilder.with_fields, Database.builder,
      FileRecordBuilder.builtRecord, List.getLast?_concat, Except.map]
  refine ⟨h1, fun hle => ?_⟩
  rw [h1, Nat.mod_eq_of_lt (by omega)]

/-- Witness for C6 at a 7-byte file, whose size is recorded exactly. -/
theorem add_size_mod256_witness :
    (runAdd c6Db "/small" { val := "ee" } 7 0 "id7" 1).1.map
      (fun r => r.size.val) = .ok 7 :=
  (add_size_mod256 c6Db "/small" { val := "ee" } 7 0 "id7" 1).2 (by decide)

/-- C8: get_or_create returns a freshly initialized, not yet persisted
Store when no file exists at the path, and otherwise the result of loading
the existing file; the fresh Store carries the current schema version, the
current working directory, both timestamps set to the current time and an
empty files sequence, and its creation fails exactly when the working
directory cannot be determined. -/
theorem get_or_create_db_correct (cwd : Except String Path) (now : Time)
    (loadResult : Except InitError Database) :
    get_or_create_db false cwd now loadResult = Database.new cwd now ∧
    get_or_create_db true cwd now loadResult = loadResult ∧
    (∀ dir, cwd = .ok dir →
      Database.new cwd now =
        .ok { version := VERSION, root_dir := dir, created_at := now,
              updated_at := now, files := [] }) ∧
    (∀ e, cwd = .error e →
      Database.new cwd now =
        .error { message := "Failed to get current directory: " ++ e }) := by
  refine ⟨rfl, rfl, ?_, ?_⟩
  · intro dir h
    rw [h]
    rfl
  · intro e h
    rw [h]
    rfl

/-- Witness for C8: bootstrap with a good working directory, load of an
existing file, and bootstrap with an undeterminable working directory. -/
theorem get_or_create_db_correct_witness :
    get_or_create_db false (.ok "/cwd") 3 (.ok w8Db) =
      .ok { version := VERSION, root_dir := "/cwd", created_at := 3,
            updated_at := 3, files := [] } ∧
    get_or_create_db true (.ok "/cwd") 3 (.ok w8Db) = .ok w8Db ∧
    get_or_create_db false (.error "no cwd") 3 (.ok w8Db) =
      .error { message := "Failed to get current directory: no cwd" } := by
  refine ⟨?_, ?_, ?_⟩
  · rw [(get_or_create_db_correct (.ok "/cwd") 3 (.ok w8Db)).1,
      (get_or_create_db_correct (.ok "/cwd") 3 (.ok w8Db)).2.2.1 "/cwd" rfl]
  · exact (get_or_create_db_correct (.ok "/cwd") 3 (.ok w8Db)).2.1
  · rw [(get_or_create_db_correct (.error "no cwd") 3 (.ok w8Db)).1,
      (get_or_create_db_correct (.error "no cwd") 3
        (.ok w8Db)).2.2.2 "no cwd" rfl]
    decide

/-- C9 (code bug): when the metadata query succeeds but reading the full
content fails, read_file_bytes aborts the process (the expect call panics)
instead of returning the error result its own documentation promises; a
metadata failure, by contrast, is returned as an error value. The abort
propagates through hash_file. -/
theorem read_file_bytes_abort_on_read_failure :
    read_file_bytes (.ok 5) (.error "read failed") = none ∧
    hash_file (read_file_bytes (.ok 5) (.error "read failed")) = none ∧
    read_file_bytes (.error "meta failed") (.error "read failed") =
      some (.error ⟨none, "Unable to retrieve meta data from file"⟩) := by
  decide

end Tamashii
